import Mathlib

/-!
Verification of the STL-to-STEP converter script (src/scripts/convert.py)
against its natural-language specification.

The script is a linear pipeline of calls into the external FreeCAD geometry
kernel.  We embed the script shallowly: the kernel's mesh operations are the
fields of an abstract `MeshKernel`, the filesystem and the remaining kernel
call sites are the fields of an `Env`, and the script's functions
(`get_mesh_info`, `repair_mesh`, `merge_planar_faces`, `convert`, `main`) are
translated statement by statement.  A call the Python wraps in `try` becomes
an `Option`/`Except` that the embedding handles; a call the Python does not
wrap becomes an `Except` whose error aborts the run as an uncaught exception.
Kernel queries are modelled as pure observations of the mesh state.
-/

/-- State of a FreeCAD mesh handle as observed through the attributes and
predicates the script reads: point, facet and edge counts, the solidity,
non-manifold and self-intersection predicates, and the volume and area
attributes. -/
structure MeshState where
  CountPoints : Nat
  CountFacets : Nat
  CountEdges : Nat
  isSolid : Bool
  hasNonManifolds : Bool
  hasSelfIntersections : Bool
  Volume : ℚ
  Area : ℚ
deriving DecidableEq

/-- The seven kernel repair operations invoked by `repair_mesh`, as an
abstract interface: each is a function on the observable mesh state.  The
algorithms themselves live in the external FreeCAD kernel.
(`fixDegenerations` is always called with the fixed arguments `(0.0, True)`,
so those are folded into the field.) -/
structure MeshKernel where
  removeDuplicatedPoints : MeshState → MeshState
  removeDuplicatedFacets : MeshState → MeshState
  fixSelfIntersections : MeshState → MeshState
  fixDegenerations : MeshState → MeshState
  removeNonManifolds : MeshState → MeshState
  fillupHoles : MeshState → MeshState
  harmonizeNormals : MeshState → MeshState

/-- The mesh-info snapshot dictionary built by `get_mesh_info`. -/
structure MeshInfo where
  points : Nat
  facets : Nat
  edges : Nat
  is_solid : Bool
  has_non_manifolds : Bool
  has_self_intersections : Bool
  volume : Option ℚ
  area : ℚ
deriving DecidableEq

/-- Translation of `get_mesh_info` (convert.py lines 64-74). -/
def get_mesh_info (mesh : MeshState) : MeshInfo :=
  { points := mesh.CountPoints
    facets := mesh.CountFacets
    edges := mesh.CountEdges
    is_solid := mesh.isSolid
    has_non_manifolds := mesh.hasNonManifolds
    has_self_intersections := mesh.hasSelfIntersections
    volume := if mesh.isSolid then some mesh.Volume else none
    area := mesh.Area }

/-- Translation of `repair_mesh` (convert.py lines 77-109): the seven passes
in their source order, with the source's log strings.  Python's in-place
mesh mutation becomes shadowing `let` bindings. -/
def repair_mesh (K : MeshKernel) (mesh : MeshState) : MeshState × List String :=
  let repairs : List String := []
  let before_pts := mesh.CountPoints
  let mesh := K.removeDuplicatedPoints mesh
  let repairs := if mesh.CountPoints < before_pts then
      repairs ++ ["Removed " ++ toString (before_pts - mesh.CountPoints) ++ " duplicate points"]
    else repairs
  let before_f := mesh.CountFacets
  let mesh := K.removeDuplicatedFacets mesh
  let repairs := if mesh.CountFacets < before_f then
      repairs ++ ["Removed " ++ toString (before_f - mesh.CountFacets) ++ " duplicate facets"]
    else repairs
  let step3 : MeshState × List String :=
    if mesh.hasSelfIntersections then
      let mesh := K.fixSelfIntersections mesh
      if !mesh.hasSelfIntersections then (mesh, repairs ++ ["Fixed self-intersections"])
      else (mesh, repairs)
    else (mesh, repairs)
  let mesh := step3.1
  let repairs := step3.2
  let mesh := K.fixDegenerations mesh
  let repairs := repairs ++ ["Fixed degenerations"]
  let step5 : MeshState × List String :=
    if mesh.hasNonManifolds then
      let mesh := K.removeNonManifolds mesh
      if !mesh.hasNonManifolds then (mesh, repairs ++ ["Removed non-manifolds"])
      else (mesh, repairs)
    else (mesh, repairs)
  let mesh := step5.1
  let repairs := step5.2
  let mesh := K.fillupHoles mesh
  let repairs := repairs ++ ["Filled holes"]
  let mesh := K.harmonizeNormals mesh
  let repairs := repairs ++ ["Harmonized normals"]
  (mesh, repairs)

/-- Opaque boundary-representation shape handles; only identity matters to
the script, which threads them between kernel calls. -/
abbrev Shape := Nat

/-- The environment of one invocation: what the filesystem and the FreeCAD
kernel do at each call site of `convert`.  `readResult` is the outcome of
`mesh.read` (an `.error` models the exception the script does not catch);
`makeShapeFromMesh` and `exportCall` may likewise raise uncaught;
`makeSolid` and `removeSplitter` may raise but the script catches those
(`none` models the exception). -/
structure Env where
  inputExists : Bool
  readResult : Except String MeshState
  kernel : MeshKernel
  makeShapeFromMesh : MeshState → ℚ → Except String Shape
  makeSolid : Shape → Option Shape
  removeSplitter : Shape → Option Shape
  exportCall : Shape → Except String Unit
  outputExists : Bool
  getsize : Nat

/-- The JSON result dictionary assembled by the script.  Keys that the script
adds only on some paths are `Option`s, `none` meaning the key is absent. -/
structure ResultRecord where
  success : Bool
  input : Option String := none
  output : Option String := none
  tolerance : Option ℚ := none
  error : Option String := none
  stage : Option String := none
  mesh_info_before : Option MeshInfo := none
  mesh_info_after : Option MeshInfo := none
  repairs : Option (List String) := none
  is_solid : Option Bool := none
  merged_planar_faces : Option Bool := none
  output_size : Option Nat := none
deriving DecidableEq

/-- Outcome of a `convert` call: either `clean_exit` printed exactly one
JSON record and hard-exited, or an exception escaped `convert` uncaught. -/
inductive Outcome where
  | emitted (r : ResultRecord)
  | uncaught (e : String)
deriving DecidableEq

/-- Translation of `merge_planar_faces` (convert.py lines 112-117):
`removeSplitter` in a `try`, returning the original shape and `False` on
exception. -/
def merge_planar_faces (env : Env) (shape : Shape) : Shape × Bool :=
  match env.removeSplitter shape with
  | some merged => (merged, true)
  | none => (shape, false)

/-- Translation of the tail of `convert` (convert.py lines 171-183): the
`Import.export` call (uncaught on exception), the output-file existence
check, and the success record with `output_size`. -/
def export_stage (env : Env) (final : Shape) (result : ResultRecord) : Outcome :=
  match env.exportCall final with
  | .error e => .uncaught e
  | .ok _ =>
    if !env.outputExists then
      .emitted { result with error := some "STEP export failed" }
    else
      .emitted { result with success := true, output_size := some env.getsize }

/-- Translation of `convert` (convert.py lines 124-183).  Each
`clean_exit(result)` becomes `.emitted result`; a kernel call the script
does not guard becomes `.uncaught` on error.  (`FreeCAD.newDocument` and
`doc.addObject` only create containers and are modelled as effect-free.) -/
def convert (env : Env) (input_path output_path : String) (tolerance : ℚ)
    (repair : Bool) (info_only : Bool) : Outcome :=
  let result : ResultRecord :=
    { success := false, input := some input_path, output := some output_path,
      tolerance := some tolerance }
  if !env.inputExists then
    .emitted { result with error := some "Input file not found" }
  else
    match env.readResult with
    | .error e => .uncaught e
    | .ok mesh =>
      if mesh.CountFacets = 0 then
        .emitted { result with error := some "STL contains no facets" }
      else
        let result := { result with mesh_info_before := some (get_mesh_info mesh) }
        if info_only then
          .emitted { result with success := true }
        else
          let step :=
            if repair then
              let pr := repair_mesh env.kernel mesh
              let result := { result with
                repairs := some pr.2
                mesh_info_after := some (get_mesh_info pr.1) }
              (pr.1, result)
            else (mesh, result)
          let mesh := step.1
          let result := step.2
          match env.makeShapeFromMesh mesh tolerance with
          | .error e => .uncaught e
          | .ok shape =>
            let sf :=
              match env.makeSolid shape with
              | some solid => (solid, { result with is_solid := some true })
              | none => (shape, { result with is_solid := some false })
            let final := sf.1
            let result := sf.2
            let mp := merge_planar_faces env final
            let final := mp.1
            let result := { result with merged_planar_faces := some mp.2 }
            export_stage env final result

/-- The JSON record printed by the module-level import guard when the
FreeCAD import raises (convert.py lines 31-45). -/
def import_failure_record (e : String) : ResultRecord :=
  { success := false
    error := some ("FreeCAD import failed: " ++ e)
    stage := some "import" }

/-- What argparse extracted from the command line: the positional arguments
and the optional flags with their argparse defaults (convert.py lines
190-196). -/
structure CmdLine where
  positionals : List String
  tolerance : ℚ := 1 / 100
  repair : Bool := true
  info : Bool := false

/-- Observable outcome of the whole process: the JSON records written to the
real standard output, and the process exit code. -/
structure ProcOutcome where
  stdoutJson : List ResultRecord
  exitCode : Nat
deriving DecidableEq

/-- Translation of `main` (convert.py lines 189-198).  With exactly two
positional arguments argparse succeeds and `convert` runs: `clean_exit`
prints one record and exits 0, an uncaught exception prints no JSON and
CPython exits 1.  With any other number of positionals `parser.parse_args`
calls `parser.error`, which writes usage to (the suppressed) stderr and
raises `SystemExit(2)`: nothing on stdout, exit code 2. -/
def main_run (env : Env) (cmd : CmdLine) : ProcOutcome :=
  match cmd.positionals with
  | [input, output] =>
    match convert env input output cmd.tolerance cmd.repair cmd.info with
    | .emitted r => ⟨[r], 0⟩
    | .uncaught _ => ⟨[], 1⟩
  | _ => ⟨[], 2⟩

/-- One whole invocation of the script: the module-level FreeCAD import
guard first (on import failure it prints the import record and calls
`sys.exit(0)`), then `main`. -/
def process (importError : Option String) (env : Env) (cmd : CmdLine) : ProcOutcome :=
  match importError with
  | some e => ⟨[import_failure_record e], 0⟩
  | none => main_run env cmd

/-- Mesh state after pass 1 of the repair pipeline (remove duplicated
points). -/
def afterPass1 (K : MeshKernel) (m : MeshState) : MeshState :=
  K.removeDuplicatedPoints m

/-- Mesh state after pass 2 (remove duplicated facets). -/
def afterPass2 (K : MeshKernel) (m : MeshState) : MeshState :=
  K.removeDuplicatedFacets (afterPass1 K m)

/-- Mesh state after pass 3 (fix self-intersections, attempted only when the
mesh currently reports them). -/
def afterPass3 (K : MeshKernel) (m : MeshState) : MeshState :=
  if (afterPass2 K m).hasSelfIntersections then K.fixSelfIntersections (afterPass2 K m)
  else afterPass2 K m

/-- Mesh state after pass 4 (fix degenerations, unconditional). -/
def afterPass4 (K : MeshKernel) (m : MeshState) : MeshState :=
  K.fixDegenerations (afterPass3 K m)

/-- Mesh state after pass 5 (remove non-manifolds, attempted only when the
mesh currently reports them). -/
def afterPass5 (K : MeshKernel) (m : MeshState) : MeshState :=
  if (afterPass4 K m).hasNonManifolds then K.removeNonManifolds (afterPass4 K m)
  else afterPass4 K m

/-- Mesh state after pass 6 (fill holes, unconditional). -/
def afterPass6 (K : MeshKernel) (m : MeshState) : MeshState :=
  K.fillupHoles (afterPass5 K m)

/-- Mesh state after pass 7 (harmonize normals, unconditional). -/
def afterPass7 (K : MeshKernel) (m : MeshState) : MeshState :=
  K.harmonizeNormals (afterPass6 K m)

/-- Log contribution of pass 1: one entry exactly when the point count
decreased. -/
def pass1Log (K : MeshKernel) (m : MeshState) : List String :=
  if (afterPass1 K m).CountPoints < m.CountPoints then
    ["Removed " ++ toString (m.CountPoints - (afterPass1 K m).CountPoints) ++ " duplicate points"]
  else []

/-- Log contribution of pass 2: one entry exactly when the facet count
decreased. -/
def pass2Log (K : MeshKernel) (m : MeshState) : List String :=
  if (afterPass2 K m).CountFacets < (afterPass1 K m).CountFacets then
    ["Removed " ++ toString ((afterPass1 K m).CountFacets - (afterPass2 K m).CountFacets) ++ " duplicate facets"]
  else []

/-- Log contribution of pass 3: one entry exactly when self-intersections
were present and the fix removed them. -/
def pass3Log (K : MeshKernel) (m : MeshState) : List String :=
  if (afterPass2 K m).hasSelfIntersections && !(afterPass3 K m).hasSelfIntersections then
    ["Fixed self-intersections"]
  else []

/-- Log contribution of pass 5: one entry exactly when non-manifolds were
present and the removal eliminated them. -/
def pass5Log (K : MeshKernel) (m : MeshState) : List String :=
  if (afterPass4 K m).hasNonManifolds && !(afterPass5 K m).hasNonManifolds then
    ["Removed non-manifolds"]
  else []

/-- Decomposition of `repair_mesh`: the final mesh is the seven passes
composed in order, and the log is the passes' contributions concatenated in
order, passes 4, 6 and 7 contributing unconditionally. -/
lemma repair_mesh_eq (K : MeshKernel) (m : MeshState) :
    repair_mesh K m =
      (afterPass7 K m,
        pass1Log K m ++ pass2Log K m ++ pass3Log K m ++ ["Fixed degenerations"]
          ++ pass5Log K m ++ ["Filled holes"] ++ ["Harmonized normals"]) := by
  simp only [repair_mesh, afterPass7, afterPass6, afterPass5, afterPass4, afterPass3,
    afterPass2, afterPass1, pass1Log, pass2Log, pass3Log, pass5Log]
  split_ifs <;> simp_all

/-- A kernel whose seven repair operations all leave the mesh unchanged
(nothing to fix, or a fix with no effect). -/
def idKernel : MeshKernel :=
  { removeDuplicatedPoints := id
    removeDuplicatedFacets := id
    fixSelfIntersections := id
    fixDegenerations := id
    removeNonManifolds := id
    fillupHoles := id
    harmonizeNormals := id }

/-- Modelled from the spec: a kernel whose hole-filling pass actually fills a
topological hole.  The spec describes pass 6 as "Unconditionally fill
topological holes", and filling a hole closes an open boundary by adding
geometry, so this kernel adds one point and one facet; the other passes find
nothing to fix. -/
def holeFillingKernel : MeshKernel :=
  { idKernel with
    fillupHoles := fun m =>
      { m with CountPoints := m.CountPoints + 1, CountFacets := m.CountFacets + 1 } }

/-- An ordinary open mesh: no duplicates, no defects, not solid. -/
def plainMesh : MeshState :=
  { CountPoints := 4, CountFacets := 2, CountEdges := 5, isSolid := false,
    hasNonManifolds := false, hasSelfIntersections := false, Volume := 0, Area := 2 }

/-- A mesh that parsed to zero facets. -/
def emptyMesh : MeshState :=
  { CountPoints := 0, CountFacets := 0, CountEdges := 0, isSolid := false,
    hasNonManifolds := false, hasSelfIntersections := false, Volume := 0, Area := 0 }

/-- A mesh currently reporting self-intersections (and non-manifolds). -/
def defectiveMesh : MeshState :=
  { CountPoints := 6, CountFacets := 4, CountEdges := 9, isSolid := false,
    hasNonManifolds := true, hasSelfIntersections := true, Volume := 0, Area := 3 }

/-- A closed solid mesh with positive volume. -/
def solidMesh : MeshState :=
  { CountPoints := 8, CountFacets := 12, CountEdges := 18, isSolid := true,
    hasNonManifolds := false, hasSelfIntersections := false, Volume := 5, Area := 6 }

/-- An environment in which every call site succeeds. -/
def okEnv : Env :=
  { inputExists := true
    readResult := .ok plainMesh
    kernel := idKernel
    makeShapeFromMesh := fun _ _ => .ok 7
    makeSolid := fun s => some s
    removeSplitter := fun s => some s
    exportCall := fun _ => .ok ()
    outputExists := true
    getsize := 42 }

/-- Environment: the input file does not exist. -/
def notFoundEnv : Env := { okEnv with inputExists := false }

/-- Environment: `mesh.read` raises (for example on a corrupt file). -/
def readRaiseEnv : Env := { okEnv with readResult := .error "read failed" }

/-- Environment: the input parses to an empty mesh. -/
def emptyMeshEnv : Env := { okEnv with readResult := .ok emptyMesh }

/-- Environment: the kernel hole-filling pass adds geometry. -/
def holeEnv : Env := { okEnv with kernel := holeFillingKernel }

/-- Environment: `Part.makeSolid` and `removeSplitter` both raise (the shape
is not closed), everything else succeeds. -/
def notSolidEnv : Env :=
  { okEnv with makeSolid := fun _ => none, removeSplitter := fun _ => none }

/-- A well-formed command line: two positional arguments, tolerance 1,
repair enabled, no info flag. -/
def baseCmd : CmdLine := { positionals := ["in.stl", "out.step"], tolerance := 1 }

/-- A command line with no positional arguments. -/
def noArgsCmd : CmdLine := { positionals := [] }

/-- A command line with a single positional argument. -/
def oneArgCmd : CmdLine := { positionals := ["only.stl"] }

/-- The record emitted when the input file does not exist. -/
def notFoundRecord : ResultRecord :=
  { success := false, input := some "in.stl", output := some "out.step",
    tolerance := some 1, error := some "Input file not found" }

/-- The record emitted when the input parses to a mesh with zero facets. -/
def emptyMeshRecord : ResultRecord :=
  { success := false, input := some "in.stl", output := some "out.step",
    tolerance := some 1, error := some "STL contains no facets" }

/-- Claim C1, as stated, is false: the run on a missing input file ends in a
conversion failure, yet the emitted record has no `stage` key at all — only
the import-failure record ever carries `stage`. -/
theorem stage_field_cex :
    (process none notFoundEnv baseCmd).stdoutJson = [notFoundRecord] ∧
    notFoundRecord.success = false ∧
    notFoundRecord.error = some "Input file not found" ∧
    notFoundRecord.stage = none := by
  refine ⟨?_, rfl, rfl, rfl⟩
  rfl

/-- Claim C1 (amended): only the kernel import failure carries a `stage`
field, with value "import"; every record emitted by `convert` — including
the input-not-found, empty-mesh and export-failure records — has no `stage`
field. -/
theorem stage_field_amended :
    (∀ e, (import_failure_record e).stage = some "import" ∧
      (import_failure_record e).success = false) ∧
    (∀ env inp outp tol rep info r,
      convert env inp outp tol rep info = .emitted r → r.stage = none) := by
  constructor
  · intro e; exact ⟨rfl, rfl⟩
  · intro env inp outp tol rep info r h
    simp only [convert, export_stage, merge_planar_faces] at h
    repeat' split at h
    all_goals simp_all [Outcome.emitted.injEq]
    all_goals subst h
    all_goals rfl

/-- Witness for the amended C1 theorem at concrete inputs. -/
theorem stage_field_amended_witness :
    (import_failure_record "boom").stage = some "import" ∧
    notFoundRecord.stage = none :=
  ⟨(stage_field_amended.1 "boom").1,
   stage_field_amended.2 notFoundEnv "in.stl" "out.step" 1 true false notFoundRecord rfl⟩

/-- Claim C2, as stated, is false: when `mesh.read` raises (for example on a
corrupt input file) the exception is not caught, so no JSON object at all
reaches standard output and the process dies with exit code 1. -/
theorem single_json_cex :
    (process none readRaiseEnv baseCmd).stdoutJson = [] ∧
    (process none readRaiseEnv baseCmd).exitCode = 1 ∧
    (process none readRaiseEnv baseCmd).stdoutJson.length ≠ 1 := by
  exact ⟨rfl, rfl, by decide⟩

/-- Claim C2 (amended): standard output carries at most one JSON object, and
exactly one whenever the process exits 0; exceptions from mesh reading,
shape reconstruction or the export call escape uncaught (no JSON, exit 1),
and malformed argument lists produce no JSON and exit 2. -/
theorem single_json_amended (ie : Option String) (env : Env) (cmd : CmdLine) :
    (process ie env cmd).stdoutJson.length ≤ 1 ∧
    ((process ie env cmd).exitCode = 0 → (process ie env cmd).stdoutJson.length = 1) := by
  cases ie with
  | some e => simp [process]
  | none =>
    simp only [process, main_run]
    split
    · split <;> simp
    · simp

/-- Witness for the amended C2 theorem at a concrete successful run. -/
theorem single_json_amended_witness :
    (process none okEnv baseCmd).stdoutJson.length = 1 :=
  (single_json_amended none okEnv baseCmd).2 rfl

/-- Claim C3, as stated, is false: with no positional arguments argparse
raises `SystemExit(2)`, so the process exit code is 2, not 0. -/
theorem exit_code_cex :
    (process none okEnv noArgsCmd).exitCode = 2 ∧
    (process none okEnv noArgsCmd).exitCode ≠ 0 := by
  exact ⟨rfl, by decide⟩

/-- Claim C3 (amended): the exit code is 0 on every path that emits a
ResultRecord (all handled failure and success paths), but a malformed
invocation with fewer than 2 positional arguments exits with argparse's
code 2 (and an uncaught kernel exception exits 1). -/
theorem exit_code_amended (ie : Option String) (env : Env) (cmd : CmdLine) :
    ((process ie env cmd).stdoutJson.length = 1 → (process ie env cmd).exitCode = 0) ∧
    (ie = none → cmd.positionals.length < 2 → (process ie env cmd).exitCode = 2) := by
  cases ie with
  | some e => exact ⟨fun _ => rfl, fun h => by cases h⟩
  | none =>
    rcases hp : cmd.positionals with _ | ⟨a, _ | ⟨b, _ | ⟨c, rest⟩⟩⟩
    · simp [process, main_run, hp]
    · simp [process, main_run, hp]
    · constructor
      · rcases hc : convert env a b cmd.tolerance cmd.repair cmd.info with r | s
        · intro _; simp [process, main_run, hp, hc]
        · intro hlen; simp [process, main_run, hp, hc] at hlen
      · intro _ hl; simp at hl
    · simp [process, main_run, hp]

/-- Witness for the amended C3 theorem at concrete invocations. -/
theorem exit_code_amended_witness :
    (process none okEnv baseCmd).exitCode = 0 ∧
    (process none okEnv noArgsCmd).exitCode = 2 :=
  ⟨(exit_code_amended none okEnv baseCmd).1 rfl,
   (exit_code_amended none okEnv noArgsCmd).2 rfl (by decide)⟩

/-- Claim C4, as stated, is false: with one positional argument nothing at
all is printed to standard output (in particular not
`{"success": false, "error": "Invalid arguments"}` — that string appears
nowhere in the program) and the process exits 2. -/
theorem invalid_args_cex :
    oneArgCmd.positionals.length < 2 ∧
    (process none okEnv oneArgCmd).stdoutJson = [] ∧
    (process none okEnv oneArgCmd).exitCode = 2 := by
  exact ⟨by decide, rfl, rfl⟩

/-- Claim C4 (amended): with fewer than 2 positional arguments argparse
writes its usage message to the (suppressed) stderr and exits with status 2;
no JSON object is emitted on standard output. -/
theorem invalid_args_amended (env : Env) (cmd : CmdLine)
    (h : cmd.positionals.length < 2) :
    (process none env cmd).stdoutJson = [] ∧ (process none env cmd).exitCode = 2 := by
  rcases hp : cmd.positionals with _ | ⟨a, _ | ⟨b, l⟩⟩
  · simp [process, main_run, hp]
  · simp [process, main_run, hp]
  · rw [hp] at h
    simp only [List.length_cons] at h
    omega

/-- Witness for the amended C4 theorem at a concrete invocation. -/
theorem invalid_args_amended_witness :
    (process none okEnv oneArgCmd).stdoutJson = [] ∧
    (process none okEnv oneArgCmd).exitCode = 2 :=
  invalid_args_amended okEnv oneArgCmd (by decide)

/-- Claim C5, as stated, is false: on an empty mesh the emitted error string
is "STL contains no facets", not "STL contains no geometry". -/
theorem empty_mesh_error_cex :
    (process none emptyMeshEnv baseCmd).stdoutJson = [emptyMeshRecord] ∧
    emptyMeshRecord.error = some "STL contains no facets" ∧
    emptyMeshRecord.error ≠ some "STL contains no geometry" := by
  exact ⟨rfl, rfl, by decide⟩

/-- Claim C5 (amended): for every input file that exists and parses to a
mesh with zero facets, the conversion fails terminally with the record's
`error` field equal to "STL contains no facets". -/
theorem empty_mesh_error_amended (env : Env) (inp outp : String) (tol : ℚ)
    (rep info : Bool) (m : MeshState)
    (h1 : env.inputExists = true) (h2 : env.readResult = .ok m)
    (h3 : m.CountFacets = 0) :
    convert env inp outp tol rep info =
      .emitted { success := false, input := some inp, output := some outp,
                 tolerance := some tol, error := some "STL contains no facets" } := by
  simp [convert, h1, h2, h3]

/-- Witness for the amended C5 theorem at a concrete empty-mesh run. -/
theorem empty_mesh_error_amended_witness :
    convert emptyMeshEnv "in.stl" "out.step" 1 true false =
      .emitted { success := false, input := some "in.stl", output := some "out.step",
                 tolerance := some 1, error := some "STL contains no facets" } :=
  empty_mesh_error_amended emptyMeshEnv "in.stl" "out.step" 1 true false emptyMesh rfl rfl rfl

/-- Claim C6: the seven repair passes run in the fixed source order, each
contributing zero or one log entries in that order; passes 4, 6 and 7 (fix
degenerations, fill holes, harmonize normals) always contribute an entry,
while passes 1 and 2 contribute one exactly when the point (respectively
facet) count actually decreased. -/
theorem repair_pipeline_order (K : MeshKernel) (m : MeshState) :
    repair_mesh K m =
      (afterPass7 K m,
        pass1Log K m ++ pass2Log K m ++ pass3Log K m ++ ["Fixed degenerations"]
          ++ pass5Log K m ++ ["Filled holes"] ++ ["Harmonized normals"]) ∧
    (pass1Log K m).length ≤ 1 ∧ (pass2Log K m).length ≤ 1 ∧
    (pass3Log K m).length ≤ 1 ∧ (pass5Log K m).length ≤ 1 ∧
    (pass1Log K m ≠ [] ↔ (afterPass1 K m).CountPoints < m.CountPoints) ∧
    (pass2Log K m ≠ [] ↔ (afterPass2 K m).CountFacets < (afterPass1 K m).CountFacets) := by
  refine ⟨repair_mesh_eq K m, ?_⟩
  simp only [pass1Log, pass2Log, pass3Log, pass5Log]
  split_ifs <;> simp_all

/-- Every entry pass 1 can log is a long "Removed ... duplicate points"
string, so no string shorter than 25 characters is among them. -/
lemma not_mem_pass1Log (K : MeshKernel) (m : MeshState) (s : String)
    (hs : s.length < 25) : s ∉ pass1Log K m := by
  simp only [pass1Log]
  split_ifs with hc
  · simp only [List.mem_singleton]
    intro he
    have hl := congrArg String.length he
    rw [String.length_append, String.length_append] at hl
    have h8 : ("Removed " : String).length = 8 := rfl
    have h17 : (" duplicate points" : String).length = 17 := rfl
    rw [h8, h17] at hl
    omega
  · simp

/-- Every entry pass 2 can log is a long "Removed ... duplicate facets"
string, so no string shorter than 25 characters is among them. -/
lemma not_mem_pass2Log (K : MeshKernel) (m : MeshState) (s : String)
    (hs : s.length < 25) : s ∉ pass2Log K m := by
  simp only [pass2Log]
  split_ifs with hc
  · simp only [List.mem_singleton]
    intro he
    have hl := congrArg String.length he
    rw [String.length_append, String.length_append] at hl
    have h8 : ("Removed " : String).length = 8 := rfl
    have h17 : (" duplicate facets" : String).length = 17 := rfl
    rw [h8, h17] at hl
    omega
  · simp

/-- Membership in the repair log, for short strings: such an entry can only
come from passes 3 to 7. -/
lemma mem_repairs_iff (K : MeshKernel) (m : MeshState) (s : String)
    (hs : s.length < 25) :
    (s ∈ (repair_mesh K m).2 ↔
      s ∈ pass3Log K m ∨ s = "Fixed degenerations" ∨ s ∈ pass5Log K m ∨
      s = "Filled holes" ∨ s = "Harmonized normals") := by
  rw [repair_mesh_eq]
  simp only [List.mem_append, List.mem_singleton]
  constructor
  · rintro ((((((h | h) | h) | h) | h) | h) | h)
    · exact absurd h (not_mem_pass1Log K m s hs)
    · exact absurd h (not_mem_pass2Log K m s hs)
    all_goals tauto
  · rintro (h | h | h | h | h) <;> tauto

/-- When pass 3 runs (self-intersections present after pass 2), its log
entry appears exactly when the subsequent re-check shows the
self-intersections gone. -/
lemma selfint_log_iff (K : MeshKernel) (m : MeshState)
    (h : (afterPass2 K m).hasSelfIntersections = true) :
    ("Fixed self-intersections" ∈ (repair_mesh K m).2 ↔
      (afterPass3 K m).hasSelfIntersections = false) := by
  have d1 : ("Fixed self-intersections" : String) ≠ "Fixed degenerations" := by decide
  have d2 : ("Fixed self-intersections" : String) ≠ "Removed non-manifolds" := by decide
  have d3 : ("Fixed self-intersections" : String) ≠ "Filled holes" := by decide
  have d4 : ("Fixed self-intersections" : String) ≠ "Harmonized normals" := by decide
  rw [mem_repairs_iff K m _ (by decide)]
  cases hb : (afterPass3 K m).hasSelfIntersections <;>
    simp [pass3Log, pass5Log, h, hb, d1, d2, d3, d4]

/-- When pass 5 runs (non-manifolds present after pass 4), its log entry
appears exactly when the subsequent re-check shows the non-manifolds gone. -/
lemma nonmanifold_log_iff (K : MeshKernel) (m : MeshState)
    (h : (afterPass4 K m).hasNonManifolds = true) :
    ("Removed non-manifolds" ∈ (repair_mesh K m).2 ↔
      (afterPass5 K m).hasNonManifolds = false) := by
  have d1 : ("Removed non-manifolds" : String) ≠ "Fixed degenerations" := by decide
  have d2 : ("Removed non-manifolds" : String) ≠ "Fixed self-intersections" := by decide
  have d3 : ("Removed non-manifolds" : String) ≠ "Filled holes" := by decide
  have d4 : ("Removed non-manifolds" : String) ≠ "Harmonized normals" := by decide
  rw [mem_repairs_iff K m _ (by decide)]
  cases hb : (afterPass5 K m).hasNonManifolds <;>
    simp [pass3Log, pass5Log, h, hb, d1, d2, d3, d4]

/-- Claim C7, as stated, is false: on a mesh reporting self-intersections
and non-manifolds whose kernel fixes do not eliminate them, the fixes are
attempted but no action is logged — the code logs each of the two passes
only when the re-check afterwards shows the defect gone. -/
theorem defect_logging_cex :
    defectiveMesh.hasSelfIntersections = true ∧
    defectiveMesh.hasNonManifolds = true ∧
    (repair_mesh idKernel defectiveMesh).2 =
      ["Fixed degenerations", "Filled holes", "Harmonized normals"] ∧
    "Fixed self-intersections" ∉ (repair_mesh idKernel defectiveMesh).2 ∧
    "Removed non-manifolds" ∉ (repair_mesh idKernel defectiveMesh).2 := by
  exact ⟨rfl, rfl, rfl, by decide, by decide⟩

/-- Claim C7 (amended): whenever the mesh reports self-intersections the fix
is attempted, and whenever it reports non-manifold geometry the removal is
attempted; but the action is logged exactly when the re-check after the
attempt shows the defect gone, not unconditionally. -/
theorem defect_logging_amended (K : MeshKernel) (m : MeshState) :
    ((afterPass2 K m).hasSelfIntersections = true →
      afterPass3 K m = K.fixSelfIntersections (afterPass2 K m) ∧
      ("Fixed self-intersections" ∈ (repair_mesh K m).2 ↔
        (afterPass3 K m).hasSelfIntersections = false)) ∧
    ((afterPass4 K m).hasNonManifolds = true →
      afterPass5 K m = K.removeNonManifolds (afterPass4 K m) ∧
      ("Removed non-manifolds" ∈ (repair_mesh K m).2 ↔
        (afterPass5 K m).hasNonManifolds = false)) := by
  constructor
  · intro h
    exact ⟨by simp [afterPass3, h], selfint_log_iff K m h⟩
  · intro h
    exact ⟨by simp [afterPass5, h], nonmanifold_log_iff K m h⟩

/-- A kernel whose self-intersection fix and non-manifold removal actually
eliminate the respective defect. -/
def fixingKernel : MeshKernel :=
  { idKernel with
    fixSelfIntersections := fun m => { m with hasSelfIntersections := false }
    removeNonManifolds := fun m => { m with hasNonManifolds := false } }

/-- Witness for the amended C7 theorem on a defective mesh with a kernel
whose fixes succeed. -/
theorem defect_logging_amended_witness :
    (afterPass3 fixingKernel defectiveMesh =
        fixingKernel.fixSelfIntersections (afterPass2 fixingKernel defectiveMesh) ∧
      ("Fixed self-intersections" ∈ (repair_mesh fixingKernel defectiveMesh).2 ↔
        (afterPass3 fixingKernel defectiveMesh).hasSelfIntersections = false)) ∧
    (afterPass5 fixingKernel defectiveMesh =
        fixingKernel.removeNonManifolds (afterPass4 fixingKernel defectiveMesh) ∧
      ("Removed non-manifolds" ∈ (repair_mesh fixingKernel defectiveMesh).2 ↔
        (afterPass5 fixingKernel defectiveMesh).hasNonManifolds = false)) :=
  ⟨(defect_logging_amended fixingKernel defectiveMesh).1 (by decide),
   (defect_logging_amended fixingKernel defectiveMesh).2 (by decide)⟩

/-- The mesh `convert` hands to shape reconstruction: the repaired mesh when
repair is enabled, the loaded mesh otherwise. -/
def reconstruction_input (env : Env) (m : MeshState) (rep : Bool) : MeshState :=
  if rep then (repair_mesh env.kernel m).1 else m

/-- The result record `convert` has assembled by the time it reaches shape
reconstruction. -/
def pre_shape_record (env : Env) (inp outp : String) (tol : ℚ) (rep : Bool)
    (m : MeshState) : ResultRecord :=
  let base : ResultRecord :=
    { success := false, input := some inp, output := some outp,
      tolerance := some tol, mesh_info_before := some (get_mesh_info m) }
  if rep then
    { base with
      repairs := some (repair_mesh env.kernel m).2
      mesh_info_after := some (get_mesh_info (repair_mesh env.kernel m).1) }
  else base

/-- Claim C8: solidification failure and planar-merge failure are never
terminal.  When `Part.makeSolid` raises, the record gets `is_solid = false`
and the run continues with the original shape straight into the export
stage; when `removeSplitter` raises, the shape is kept unchanged and the
record gets `merged_planar_faces = false`. -/
theorem soft_failures_not_terminal (env : Env) (inp outp : String) (tol : ℚ)
    (rep : Bool) (m : MeshState) (shape : Shape)
    (h1 : env.inputExists = true) (h2 : env.readResult = .ok m)
    (h3 : m.CountFacets ≠ 0)
    (h4 : env.makeShapeFromMesh (reconstruction_input env m rep) tol = .ok shape) :
    (env.makeSolid shape = none →
      convert env inp outp tol rep false =
        export_stage env (merge_planar_faces env shape).1
          { pre_shape_record env inp outp tol rep m with
            is_solid := some false
            merged_planar_faces := some (merge_planar_faces env shape).2 }) ∧
    (∀ s, env.removeSplitter s = none → merge_planar_faces env s = (s, false)) := by
  constructor
  · intro h5
    cases rep with
    | false =>
      simp [reconstruction_input] at h4
      simp [convert, h1, h2, h3, h4, h5, pre_shape_record, merge_planar_faces]
    | true =>
      simp [reconstruction_input] at h4
      simp [convert, h1, h2, h3, h4, h5, pre_shape_record, merge_planar_faces]
  · intro s hs
    simp [merge_planar_faces, hs]

/-- Witness for the C8 theorem: a run where both solidification and
planar-face merging raise still reaches the export stage with the original
shape and both flags false. -/
theorem soft_failures_not_terminal_witness :
    convert notSolidEnv "in.stl" "out.step" 1 true false =
      export_stage notSolidEnv (merge_planar_faces notSolidEnv 7).1
        { pre_shape_record notSolidEnv "in.stl" "out.step" 1 true plainMesh with
          is_solid := some false
          merged_planar_faces := some (merge_planar_faces notSolidEnv 7).2 } ∧
    merge_planar_faces notSolidEnv 7 = (7, false) :=
  ⟨(soft_failures_not_terminal notSolidEnv "in.stl" "out.step" 1 true plainMesh 7
      rfl rfl (by decide) rfl).1 rfl,
   (soft_failures_not_terminal notSolidEnv "in.stl" "out.step" 1 true plainMesh 7
      rfl rfl (by decide) rfl).2 7 rfl⟩

/-- `plainMesh` after the hole-filling kernel's repair pipeline: one point
and one facet more. -/
def holeRepairedMesh : MeshState :=
  { plainMesh with CountPoints := 5, CountFacets := 3 }

/-- The successful record emitted by the run in `holeEnv`. -/
def holeRunRecord : ResultRecord :=
  { success := true, input := some "in.stl", output := some "out.step",
    tolerance := some 1,
    mesh_info_before := some (get_mesh_info plainMesh),
    mesh_info_after := some (get_mesh_info holeRepairedMesh),
    repairs := some ["Fixed degenerations", "Filled holes", "Harmonized normals"],
    is_solid := some true, merged_planar_faces := some true, output_size := some 42 }

/-- Claim C9, as stated, is false: with a kernel whose hole-filling pass
adds geometry (which is what filling a topological hole does), the reported
after-repair point and facet counts exceed the before-repair counts — the
code copies the kernel's counts verbatim and enforces no inequality. -/
theorem repair_monotonicity_cex :
    (process none holeEnv baseCmd).stdoutJson = [holeRunRecord] ∧
    holeRunRecord.mesh_info_before = some (get_mesh_info plainMesh) ∧
    holeRunRecord.mesh_info_after = some (get_mesh_info holeRepairedMesh) ∧
    ¬ ((get_mesh_info holeRepairedMesh).points ≤ (get_mesh_info plainMesh).points) ∧
    ¬ ((get_mesh_info holeRepairedMesh).facets ≤ (get_mesh_info plainMesh).facets) := by
  exact ⟨rfl, rfl, rfl, by decide, by decide⟩

/-- A mesh operation that never increases the point or facet count. -/
def CountNonIncreasing (f : MeshState → MeshState) : Prop :=
  ∀ m, (f m).CountPoints ≤ m.CountPoints ∧ (f m).CountFacets ≤ m.CountFacets

/-- A kernel none of whose seven repair operations increases the point or
facet count. -/
def KernelNonIncreasing (K : MeshKernel) : Prop :=
  CountNonIncreasing K.removeDuplicatedPoints ∧
  CountNonIncreasing K.removeDuplicatedFacets ∧
  CountNonIncreasing K.fixSelfIntersections ∧
  CountNonIncreasing K.fixDegenerations ∧
  CountNonIncreasing K.removeNonManifolds ∧
  CountNonIncreasing K.fillupHoles ∧
  CountNonIncreasing K.harmonizeNormals

/-- Under a count-non-increasing kernel, the repair pipeline never increases
the point or facet count. -/
lemma repair_mesh_counts_le (K : MeshKernel) (m : MeshState)
    (hK : KernelNonIncreasing K) :
    (repair_mesh K m).1.CountPoints ≤ m.CountPoints ∧
    (repair_mesh K m).1.CountFacets ≤ m.CountFacets := by
  obtain ⟨k1, k2, k3, k4, k5, k6, k7⟩ := hK
  have hfst : (repair_mesh K m).1 = afterPass7 K m := by rw [repair_mesh_eq]
  rw [hfst]
  have h1 : (afterPass1 K m).CountPoints ≤ m.CountPoints ∧
      (afterPass1 K m).CountFacets ≤ m.CountFacets := k1 m
  have h2 : (afterPass2 K m).CountPoints ≤ (afterPass1 K m).CountPoints ∧
      (afterPass2 K m).CountFacets ≤ (afterPass1 K m).CountFacets := k2 (afterPass1 K m)
  have h3 : (afterPass3 K m).CountPoints ≤ (afterPass2 K m).CountPoints ∧
      (afterPass3 K m).CountFacets ≤ (afterPass2 K m).CountFacets := by
    simp only [afterPass3]
    split_ifs
    · exact k3 _
    · exact ⟨le_refl _, le_refl _⟩
  have h4 : (afterPass4 K m).CountPoints ≤ (afterPass3 K m).CountPoints ∧
      (afterPass4 K m).CountFacets ≤ (afterPass3 K m).CountFacets := k4 (afterPass3 K m)
  have h5 : (afterPass5 K m).CountPoints ≤ (afterPass4 K m).CountPoints ∧
      (afterPass5 K m).CountFacets ≤ (afterPass4 K m).CountFacets := by
    simp only [afterPass5]
    split_ifs
    · exact k5 _
    · exact ⟨le_refl _, le_refl _⟩
  have h6 : (afterPass6 K m).CountPoints ≤ (afterPass5 K m).CountPoints ∧
      (afterPass6 K m).CountFacets ≤ (afterPass5 K m).CountFacets := k6 (afterPass5 K m)
  have h7 : (afterPass7 K m).CountPoints ≤ (afterPass6 K m).CountPoints ∧
      (afterPass7 K m).CountFacets ≤ (afterPass6 K m).CountFacets := k7 (afterPass6 K m)
  exact ⟨by omega, by omega⟩

/-- Claim C9 (amended): when repair is enabled and the repair stage runs,
`repairs` and `mesh_info_after` (and `mesh_info_before`) are present in any
emitted record, and the after-repair counts are exactly the repaired mesh's
counts; the claimed inequalities hold whenever no kernel pass increases the
counts, but a geometry-adding pass such as hole filling can break them. -/
theorem repair_monotonicity_amended (env : Env) (inp outp : String) (tol : ℚ)
    (m : MeshState) (r : ResultRecord)
    (h1 : env.inputExists = true) (h2 : env.readResult = .ok m)
    (h3 : m.CountFacets ≠ 0)
    (hr : convert env inp outp tol true false = .emitted r) :
    r.repairs = some (repair_mesh env.kernel m).2 ∧
    r.mesh_info_after = some (get_mesh_info (repair_mesh env.kernel m).1) ∧
    r.mesh_info_before = some (get_mesh_info m) ∧
    (KernelNonIncreasing env.kernel →
      (get_mesh_info (repair_mesh env.kernel m).1).points ≤ (get_mesh_info m).points ∧
      (get_mesh_info (repair_mesh env.kernel m).1).facets ≤ (get_mesh_info m).facets) := by
  have hfields : r.repairs = some (repair_mesh env.kernel m).2 ∧
      r.mesh_info_after = some (get_mesh_info (repair_mesh env.kernel m).1) ∧
      r.mesh_info_before = some (get_mesh_info m) := by
    simp only [convert, export_stage, merge_planar_faces] at hr
    repeat' split at hr
    all_goals simp_all [Outcome.emitted.injEq]
    all_goals subst hr
    all_goals exact ⟨rfl, rfl, rfl⟩
  refine ⟨hfields.1, hfields.2.1, hfields.2.2, ?_⟩
  intro hK
  have hle := repair_mesh_counts_le env.kernel m hK
  simpa [get_mesh_info] using hle

/-- The identity kernel never increases the counts. -/
lemma idKernel_nonincreasing : KernelNonIncreasing idKernel := by
  refine ⟨?_, ?_, ?_, ?_, ?_, ?_, ?_⟩ <;> exact fun m => ⟨le_refl _, le_refl _⟩

/-- The successful record emitted by the run in `okEnv`. -/
def okRunRecord : ResultRecord :=
  { success := true, input := some "in.stl", output := some "out.step",
    tolerance := some 1,
    mesh_info_before := some (get_mesh_info plainMesh),
    mesh_info_after := some (get_mesh_info plainMesh),
    repairs := some ["Fixed degenerations", "Filled holes", "Harmonized normals"],
    is_solid := some true, merged_planar_faces := some true, output_size := some 42 }

/-- Witness for the amended C9 theorem on a concrete successful run with the
identity kernel. -/
theorem repair_monotonicity_amended_witness :
    okRunRecord.repairs = some (repair_mesh okEnv.kernel plainMesh).2 ∧
    okRunRecord.mesh_info_after = some (get_mesh_info (repair_mesh okEnv.kernel plainMesh).1) ∧
    (get_mesh_info (repair_mesh okEnv.kernel plainMesh).1).points ≤
      (get_mesh_info plainMesh).points :=
  ⟨(repair_monotonicity_amended okEnv "in.stl" "out.step" 1 plainMesh okRunRecord
      rfl rfl (by decide) rfl).1,
   (repair_monotonicity_amended okEnv "in.stl" "out.step" 1 plainMesh okRunRecord
      rfl rfl (by decide) rfl).2.1,
   ((repair_monotonicity_amended okEnv "in.stl" "out.step" 1 plainMesh okRunRecord
      rfl rfl (by decide) rfl).2.2.2 idKernel_nonincreasing).1⟩

/-- Claim C10: in every mesh-info object `get_mesh_info` produces, `volume`
is null whenever `is_solid` is false, and carries the kernel's (non-negative)
enclosed volume whenever `is_solid` is true.  Non-negativity of a solid's
enclosed volume is the kernel's guarantee, taken as the hypothesis. -/
theorem volume_null_iff_not_solid (m : MeshState) (h : 0 ≤ m.Volume) :
    ((get_mesh_info m).is_solid = false → (get_mesh_info m).volume = none) ∧
    ((get_mesh_info m).is_solid = true →
      (get_mesh_info m).volume = some m.Volume ∧
      ∀ v, (get_mesh_info m).volume = some v → 0 ≤ v) := by
  cases hb : m.isSolid with
  | false => simp [get_mesh_info, hb]
  | true =>
    refine ⟨by simp [get_mesh_info, hb], fun _ => ⟨by simp [get_mesh_info, hb], ?_⟩⟩
    intro v hv
    simp [get_mesh_info, hb] at hv
    rw [← hv]
    exact h

/-- Witness for the C10 theorem at a concrete solid mesh. -/
theorem volume_null_iff_not_solid_witness :
    (0 : ℚ) ≤ solidMesh.Volume ∧
    (((get_mesh_info solidMesh).is_solid = false → (get_mesh_info solidMesh).volume = none) ∧
      ((get_mesh_info solidMesh).is_solid = true →
        (get_mesh_info solidMesh).volume = some solidMesh.Volume ∧
        ∀ v, (get_mesh_info solidMesh).volume = some v → 0 ≤ v)) :=
  ⟨by norm_num [solidMesh], volume_null_iff_not_solid solidMesh (by norm_num [solidMesh])⟩
